import Mathlib

/-!
Verification of the semantic-scholar-scrapper crawler (src/main.py).

The development shallowly embeds the crawler-relevant code of the class
SemanticScholarScrapper:

* the data model of paper records returned by the semantic scholar API
  (a dictionary with a paperId, a title and two stub lists);
* the record store / frontier bookkeeping of get_related_papers
  (lines 44-65) and the expansion subroutine _retrieve_related_papers
  (lines 67-97), including the single-fetch gate `related_paper_id not in
  papers_dict`;
* the rate-limited fetch _get_paper_json_by_id (lines 211-229);
* the filename derivation create_json_file_name (lines 113-129);
* the exception flow of scrap_paper_by_title (lines 155-191) together
  with the FirstPaperDifferentError class (lines 359-363).

External effects (HTTP, the web driver, the filesystem clock) are passed
in as oracle arguments; every function is executable.
-/

namespace Scrapper

/-- Eq holds for Strings exactly when beq does; convenience restatement used
throughout the development. -/
theorem string_beq_eq (a b : String) : (a == b) = true ↔ a = b := by
  exact beq_iff_eq

/-- RelatedPaperStub: an entry of a `references` or `citations` list as
returned by the API; only its `paperId` field is read by the crawler
(src/main.py line 84). -/
structure Stub where
  paperId : String
deriving DecidableEq, Repr

/-- PaperRecord: one paper dictionary as returned by the semantic scholar
API. The crawler reads `paperId`, `title`, `references` and `citations`;
all other fields are opaque to it and omitted from the model. -/
structure Paper where
  paperId : String
  title : String
  references : List Stub
  citations : List Stub
deriving DecidableEq, Repr

/-- Model of the Python dict `papers_dict`: an insertion-ordered
association list from paper id to paper record. -/
abbrev Dict := List (String × Paper)

/-- Membership test modelling the Python `in` operator on `papers_dict`
(src/main.py line 89). -/
def memD (d : Dict) (k : String) : Bool :=
  d.any (fun kv => kv.1 == k)

/-- Lookup modelling the Python subscript `papers_dict[paper_id]`
(src/main.py line 85); `none` models a KeyError. -/
def lookupD (d : Dict) (k : String) : Option Paper :=
  (d.find? (fun kv => kv.1 == k)).map (fun kv => kv.2)

/-- Relationship type argument of _retrieve_related_papers: the string
values used at src/main.py lines 64-65. -/
inductive RelType
  | references
  | citations
deriving DecidableEq, Repr

/-- Edge list selected by `papers_dict[paper_id][relationship_type]`
(src/main.py line 85). -/
def relListOf (p : Paper) : RelType → List Stub
  | RelType.references => p.references
  | RelType.citations => p.citations

/-- Transport-level failures of `requests.get` (src/main.py lines 223-226):
requests.exceptions.RequestException, which covers connection errors and
timeouts. -/
inductive ReqErr
  | connectionError
  | timeout
deriving DecidableEq, Repr

/-- Failure of `request.json()` (src/main.py line 229): the body does not
decode as JSON. -/
inductive DecodeErr
  | jsonDecodeError
deriving DecidableEq, Repr

/-- FetchError taxonomy of the spec: a fetch fails either at the transport
level or while decoding the body. -/
inductive FetchError
  | network (e : ReqErr)
  | decode (e : DecodeErr)
deriving DecidableEq, Repr

/-- Python exceptions that can surface from the crawler and the scraper:
TypeError (wrong arity of a call, or constructing an exception class whose
init requires missing arguments), KeyError (dict subscript miss), a
propagated FetchError, and the selenium-level failures of the out-of-scope
seed-resolution steps. -/
inductive PyError
  | typeError
  | keyError
  | fetchError (e : FetchError)
  | seleniumTimeout
  | webDriverError
  | firstPaperDifferent
deriving DecidableEq, Repr

/-- Observable events of one crawl: a node is popped and marked visited, a
paper is fetched from the API, a record is saved to disk, an id is appended
to the frontier queue. -/
inductive Ev
  | visit (id : String)
  | fetch (id : String)
  | save (id : String)
  | enqueue (id : String)
deriving DecidableEq, Repr

/-- Crawl state: the record store `papers_dict`, the visited set
`paper_visited_set` (kept as a list to record order), the frontier
`paper_id_queue`, and the event trace of the run so far. -/
structure CrawlState where
  papersDict : Dict
  visited : List String
  queue : List String
  events : List Ev
deriving DecidableEq, Repr

/-- Projection of the fetch events of a trace to the fetched ids. -/
def fetchIds (evs : List Ev) : List String :=
  evs.filterMap fun e =>
    match e with
    | Ev.fetch id => some id
    | _ => none

/-- Projection of the visit events of a trace to the visited ids. -/
def visitIds (evs : List Ev) : List String :=
  evs.filterMap fun e =>
    match e with
    | Ev.visit id => some id
    | _ => none

/-- Projection of the save events of a trace to the saved ids. -/
def saveIds (evs : List Ev) : List String :=
  evs.filterMap fun e =>
    match e with
    | Ev.save id => some id
    | _ => none

/-- Effects of storing one newly fetched record (src/main.py lines 90-97):
insert into papers_dict, record the fetch, record the save when an output
directory was given, and append to the queue when the id is unvisited. -/
def recordNew (saveOn : Bool) (id : String) (rec : Paper) (s : CrawlState) : CrawlState :=
  if id ∈ s.visited then
    { s with papersDict := s.papersDict ++ [(id, rec)],
             events := s.events ++ [Ev.fetch id]
                       ++ (if saveOn then [Ev.save id] else []) }
  else
    { s with papersDict := s.papersDict ++ [(id, rec)],
             queue := s.queue ++ [id],
             events := s.events ++ [Ev.fetch id]
                       ++ (if saveOn then [Ev.save id] else []) ++ [Ev.enqueue id] }

/-- Embeds the for loop of _retrieve_related_papers (src/main.py lines
88-97): for each related id in order, if it is not yet in papers_dict call
_get_paper_json_by_id (the `f` oracle), store the record, save it when an
output directory was given, and enqueue it when unvisited. A failing fetch
propagates immediately, aborting the loop. -/
def expandStep (f : String → Except FetchError Paper) (saveOn : Bool) :
    List String → CrawlState → CrawlState × Option FetchError
  | [], s => (s, none)
  | id :: rest, s =>
    if memD s.papersDict id then
      expandStep f saveOn rest s
    else
      match f id with
      | Except.error e => (s, some e)
      | Except.ok rec => expandStep f saveOn rest (recordNew saveOn id rec s)

/-- Embeds _retrieve_related_papers (src/main.py lines 67-97), with the
visited set and queue passed as its signature declares: look up the record
(KeyError if absent), build the related id list filtering out empty-string
ids (lines 84-86), then run the expansion loop. -/
def retrieveRelatedPapers (f : String → Except FetchError Paper) (saveOn : Bool)
    (paperId : String) (rel : RelType) (s : CrawlState) : CrawlState × Option PyError :=
  match lookupD s.papersDict paperId with
  | none => (s, some PyError.keyError)
  | some paper =>
    let ids := ((relListOf paper rel).filter (fun st => st.paperId != "")).map Stub.paperId
    match expandStep f saveOn ids s with
    | (t, none) => (t, none)
    | (t, some e) => (t, some (PyError.fetchError e))

/-- Effects of lines 60-63 of src/main.py for an unvisited popped id: drop
it from the queue, add it to the visited set, record the visit. -/
def markVisited (id : String) (rest : List String) (s : CrawlState) : CrawlState :=
  { s with queue := rest, visited := s.visited ++ [id], events := s.events ++ [Ev.visit id] }

/-- BFS driver loop of get_related_papers (src/main.py lines 59-65) with
_retrieve_related_papers invoked according to its declared signature. The
literal source passes only four positional arguments and raises TypeError
at the first call (see getRelatedPapers below); this definition models the
composition the two methods jointly define, which claims about crawl
behaviour quantify over. Fuel makes the recursion total; any fuel bound
large enough for the queue to drain yields the full run. -/
def crawlLoop (f : String → Except FetchError Paper) (saveOn : Bool) :
    Nat → CrawlState → CrawlState × Option PyError
  | 0, s => (s, none)
  | Nat.succ fuel, s =>
    match s.queue with
    | [] => (s, none)
    | id :: rest =>
      if id ∈ s.visited then
        crawlLoop f saveOn fuel { s with queue := rest }
      else
        match retrieveRelatedPapers f saveOn id RelType.references (markVisited id rest s) with
        | (t, some e) => (t, some e)
        | (t, none) =>
          match retrieveRelatedPapers f saveOn id RelType.citations t with
          | (u, some e) => (u, some e)
          | (u, none) => crawlLoop f saveOn fuel u

/-- Initial crawl state of get_related_papers (src/main.py lines 56-57):
the queue holds the keys of papers_dict in order, the visited set and the
trace are empty. -/
def initState (d : Dict) : CrawlState :=
  { papersDict := d, visited := [], queue := d.map Prod.fst, events := [] }

/-- Whole crawl with the subroutine invoked per its signature: drain the
queue starting from the seed dictionary. -/
def crawl (f : String → Except FetchError Paper) (saveOn : Bool) (fuel : Nat)
    (d : Dict) : CrawlState × Option PyError :=
  crawlLoop f saveOn fuel (initState d)

/-- Loop body of the literal get_related_papers (src/main.py lines 59-65).
The call at line 64 passes four positional arguments (papers_dict,
current_paper_id, the relationship string, out_dir_name) to a method whose
signature requires five before its one default (papers_dict, paper_id,
relationship_type, paper_visited_set, paper_id_queue, out_dir_name=None),
so Python raises `TypeError: missing 1 required positional argument` at
the call site, before the method body runs: no fetch, save or enqueue is
ever performed. The visited-set insertion at line 63 has already happened,
hence the visit event. -/
def getRelatedPapersGo : List String → List String → List Ev → List Ev × Except PyError Unit
  | [], _, evs => (evs, Except.ok ())
  | id :: rest, visited, evs =>
    if id ∈ visited then getRelatedPapersGo rest visited evs
    else (evs ++ [Ev.visit id], Except.error PyError.typeError)

/-- Embeds the literal get_related_papers (src/main.py lines 44-65): seed
the queue with the keys of papers_dict and run the loop; the run aborts
with TypeError at the first unvisited id (see getRelatedPapersGo). -/
def getRelatedPapers (d : Dict) : List Ev × Except PyError Unit :=
  getRelatedPapersGo (d.map Prod.fst) [] []

/-- Steps of one _get_paper_json_by_id call that are visible from outside:
the HTTP GET issued by `requests.get` and the `time.sleep` cooldown. -/
inductive FetchEv
  | httpGet
  | sleep
deriving DecidableEq, Repr

/-- Embeds _get_paper_json_by_id (src/main.py lines 211-229). The oracle
`httpResult` is the outcome of `requests.get(json_url)` and `parseJson`
the outcome of `request.json()` on the returned body. The source performs,
in order: the GET (re-raising any RequestException unchanged, lines
223-226), then `time.sleep(self._time_between_api_call)` (line 228), then
the JSON decode of the already-received body (line 229). The returned
trace lists the externally visible steps in the order they occur. -/
def getPaperJsonById (httpResult : Except ReqErr String)
    (parseJson : String → Except DecodeErr Paper) :
    List FetchEv × Except FetchError Paper :=
  match httpResult with
  | Except.error e => ([FetchEv.httpGet], Except.error (FetchError.network e))
  | Except.ok body =>
    match parseJson body with
    | Except.error e => ([FetchEv.httpGet, FetchEv.sleep], Except.error (FetchError.decode e))
    | Except.ok p => ([FetchEv.httpGet, FetchEv.sleep], Except.ok p)

/-- Word characters of the regular expression `\w` used at src/main.py
line 126, over the ASCII fragment the repository works with: letters,
digits and the underscore. -/
def isWordChar (c : Char) : Bool :=
  c.isAlphanum || c == '_'

/-- Helper of wordRuns: scans the character list, accumulating the current
(reversed) run of word characters. -/
def wordRunsAux : List Char → List Char → List (List Char)
  | [], acc => if acc.isEmpty then [] else [acc.reverse]
  | c :: cs, acc =>
    if isWordChar c then wordRunsAux cs (c :: acc)
    else if acc.isEmpty then wordRunsAux cs []
    else acc.reverse :: wordRunsAux cs []

/-- Embeds `re.findall` of the pattern of one-or-more word characters
(src/main.py line 126): the maximal runs of word characters of the input,
in order. -/
def wordRuns (s : List Char) : List (List Char) :=
  wordRunsAux s []

/-- Embeds the title normalisation of create_json_file_name (src/main.py
line 126): join the word runs with underscores, lowercase, keep the first
50 characters. -/
def createJsonBaseName (title : String) : String :=
  String.mk (((List.intercalate ['_'] (wordRuns title.toList)).map Char.toLower).take 50)

/-- Models `os.path.join(out_dir_name, title)` for the arguments the
source produces: a base-name component made only of word characters and
underscores. An empty directory yields the name alone, a directory ending
in a slash is not doubled, and an absolute second component replaces the
directory. -/
def pathJoin (dir name : String) : String :=
  if name.toList.head? == some '/' then name
  else if dir == "" then name
  else if dir.toList.getLast? == some '/' then dir ++ name
  else dir ++ "/" ++ name

/-- Embeds create_json_file_name (src/main.py lines 113-129): derive the
base name from the title, join it under the output directory, append the
fixed `.json` extension. -/
def createJsonFileName (p : Paper) (outDirName : String) : String :=
  pathJoin outDirName (createJsonBaseName p.title) ++ ".json"

/-- Modelled from the words of the specification for comparison with the
code: the word-character runs of the title, each lowercased, joined by
underscores, truncated to at most 50 characters. -/
def specFileBaseName (title : String) : String :=
  String.mk ((List.intercalate ['_'] ((wordRuns title.toList).map
    (fun r => r.map Char.toLower))).take 50)

/-- Model of the attributes dictionary built by scrap_paper_by_title; its
contents are opaque to the exception-flow claims. -/
abbrev AttrDict := List (String × String)

/-- Embeds _check_paper_page (src/main.py lines 193-209) given the outcome
of the wait-and-find steps and the Levenshtein distance between the
requested title and the page title. When the distance exceeds 10 the
source executes `raise FirstPaperDifferentError`; the class has
`def init(self, expression, message)` taking two required arguments
(lines 359-363), so raising the bare class fails to construct the
instance and Python raises TypeError instead. -/
def checkPaperPage (waitExc : Option PyError) (dist : Nat) : Option PyError :=
  match waitExc with
  | some e => some e
  | none => if dist ≤ 10 then none else some PyError.typeError

/-- Outcomes of the external steps performed by one scrap_paper_by_title
call: exceptions (if any) of _start_browser, _search_paper_by_name,
_open_first_link_in_search_page, the wait inside _check_paper_page, the
measured title distance, the combined outcome of the attribute-gathering
lines 175-182, and the exception (if any) of _close_browser. -/
structure ScrapOutcomes where
  startExc : Option PyError
  searchExc : Option PyError
  openFirstExc : Option PyError
  checkWaitExc : Option PyError
  titleDistance : Nat
  attrsResult : Except PyError AttrDict
  closeExc : Option PyError
deriving Repr

/-- Embeds the try body of scrap_paper_by_title (src/main.py lines
170-185): run the steps in order and return the value of attributes_dict
together with the in-flight exception, if any. The dict is reassigned only
at line 178, inside the attribute-gathering block, so any earlier
exception leaves it empty. -/
def scrapPaperByTitleBody (callBrowser : Bool) (o : ScrapOutcomes) :
    AttrDict × Option PyError :=
  match o.searchExc with
  | some e => ([], some e)
  | none =>
  match o.openFirstExc with
  | some e => ([], some e)
  | none =>
  match checkPaperPage o.checkWaitExc o.titleDistance with
  | some e => ([], some e)
  | none =>
  match o.attrsResult with
  | Except.error e => ([], some e)
  | Except.ok d =>
    match (if callBrowser then o.closeExc else none) with
    | some e => (d, some e)
    | none => (d, none)

/-- Embeds scrap_paper_by_title (src/main.py lines 155-191). When
call_browser is true, _start_browser runs before the try block (lines
167-168), so its exception propagates to the caller. Inside the
try/except/finally, the finally block consists of `return
attributes_dict`; by Python semantics a return in a finally block discards
any in-flight exception, whether it came from the try body, from an
unmatched exception type, or from the except handler itself, so every such
path returns the current dict. -/
def scrapPaperByTitle (callBrowser : Bool) (o : ScrapOutcomes) :
    Except PyError AttrDict :=
  match (if callBrowser then o.startExc else none) with
  | some e => Except.error e
  | none =>
    match scrapPaperByTitleBody callBrowser o with
    | (d, none) => Except.ok d
    | (d, some PyError.firstPaperDifferent) => Except.ok d
    | (d, some _) => Except.ok d

/-- Paper A of the diamond scenario: references B and C, no citations. -/
def paperA : Paper :=
  { paperId := "A", title := "Paper Alpha", references := [⟨"B"⟩, ⟨"C"⟩], citations := [] }

/-- Paper B of the diamond scenario: citations list holds A and D. -/
def paperB : Paper :=
  { paperId := "B", title := "Paper Beta", references := [], citations := [⟨"A"⟩, ⟨"D"⟩] }

/-- Paper C of the diamond scenario: no edges. -/
def paperC : Paper :=
  { paperId := "C", title := "Paper Gamma", references := [], citations := [] }

/-- Paper D of the diamond scenario: no edges. -/
def paperD : Paper :=
  { paperId := "D", title := "Paper Delta", references := [], citations := [] }

/-- Seed dictionary of the diamond scenario: the single seed A. -/
def diamondSeeds : Dict := [("A", paperA)]

/-- Fetch oracle of the diamond scenario: a static mock of the API serving
B, C and D; any other id fails. -/
def diamondFetch : String → Except FetchError Paper := fun id =>
  if id == "B" then Except.ok paperB
  else if id == "C" then Except.ok paperC
  else if id == "D" then Except.ok paperD
  else Except.error (FetchError.network ReqErr.timeout)

/-- Seed paper whose single reference cannot be fetched; used to exercise
the fetch-failure path. -/
def paperFailSeed : Paper :=
  { paperId := "A", title := "Paper Alpha", references := [⟨"X"⟩], citations := [] }

/-- Fetch oracle that fails every call with a timeout. -/
def failFetch : String → Except FetchError Paper := fun _ =>
  Except.error (FetchError.network ReqErr.timeout)

/-- Appending entries on the right preserves membership. -/
theorem memD_append_left (d e : Dict) (k : String) (h : memD d k = true) :
    memD (d ++ e) k = true := by
  simp only [memD, List.any_append, Bool.or_eq_true]
  exact Or.inl h

/-- Membership holds for a key just appended. -/
theorem memD_append_self (d : Dict) (k : String) (r : Paper) :
    memD (d ++ [(k, r)]) k = true := by
  simp [memD, List.any_append]

/-- Appending an entry with a different key does not create membership. -/
theorem memD_append_ne (d : Dict) (j k : String) (r : Paper) (h : (j == k) = false) :
    memD (d ++ [(j, r)]) k = memD d k := by
  simp [memD, List.any_append, h]

/-- Appending entries on the right preserves successful lookups. -/
theorem lookupD_append (d e : Dict) (k : String) (r : Paper)
    (h : lookupD d k = some r) : lookupD (d ++ e) k = some r := by
  unfold lookupD at h ⊢
  rw [List.find?_append]
  cases hf : List.find? (fun kv => kv.1 == k) d with
  | none => rw [hf] at h; simp at h
  | some kv => rw [hf] at h; simpa using h

/-- Record store update performed by recordNew. -/
theorem recordNew_papersDict (saveOn : Bool) (id : String) (rec : Paper) (s : CrawlState) :
    (recordNew saveOn id rec s).papersDict = s.papersDict ++ [(id, rec)] := by
  unfold recordNew
  split <;> rfl

/-- Visited set is untouched by recordNew. -/
theorem recordNew_visited (saveOn : Bool) (id : String) (rec : Paper) (s : CrawlState) :
    (recordNew saveOn id rec s).visited = s.visited := by
  unfold recordNew
  split <;> rfl

/-- Trace extension performed by recordNew: a fetch event, an optional save
event, an optional enqueue event. -/
theorem recordNew_events (saveOn : Bool) (id : String) (rec : Paper) (s : CrawlState) :
    (recordNew saveOn id rec s).events =
      s.events ++ ([Ev.fetch id] ++ (if saveOn then [Ev.save id] else [])
        ++ (if id ∈ s.visited then [] else [Ev.enqueue id])) := by
  unfold recordNew
  by_cases hv : id ∈ s.visited <;> by_cases hs : saveOn <;> simp [hv, hs]

/-- Fetch-id projection of the trace grows by exactly the fetched id. -/
theorem recordNew_fetchIds (saveOn : Bool) (id : String) (rec : Paper) (s : CrawlState) :
    fetchIds (recordNew saveOn id rec s).events = fetchIds s.events ++ [id] := by
  rw [recordNew_events]
  simp only [fetchIds, List.filterMap_append]
  split <;> split <;> simp [fetchIds]

/-- Expansion never overwrites or deletes a stored record. -/
theorem expandStep_lookup_preserved (f : String → Except FetchError Paper) (saveOn : Bool)
    (ids : List String) : ∀ (s : CrawlState) (k : String) (r : Paper),
      lookupD s.papersDict k = some r →
      lookupD (expandStep f saveOn ids s).1.papersDict k = some r := by
  induction ids with
  | nil => intro s k r h; simpa [expandStep] using h
  | cons id rest ih =>
    intro s k r h
    rw [expandStep]
    by_cases hm : memD s.papersDict id = true
    · simp only [hm, if_true]
      exact ih s k r h
    · simp only [hm, if_false, Bool.false_eq_true]
      cases hf : f id with
      | error e => simpa using h
      | ok rec =>
        apply ih
        rw [recordNew_papersDict]
        exact lookupD_append _ _ _ _ h

/-- Lookup or expansion inside _retrieve_related_papers never overwrites or
deletes a stored record. -/
theorem retrieve_lookup_preserved (f : String → Except FetchError Paper) (saveOn : Bool)
    (pid : String) (rel : RelType) (s : CrawlState) (k : String) (r : Paper)
    (h : lookupD s.papersDict k = some r) :
    lookupD (retrieveRelatedPapers f saveOn pid rel s).1.papersDict k = some r := by
  unfold retrieveRelatedPapers
  cases hl : lookupD s.papersDict pid with
  | none => simpa using h
  | some paper =>
    simp only
    have hg := expandStep_lookup_preserved f saveOn
      (((relListOf paper rel).filter (fun st => st.paperId != "")).map Stub.paperId) s k r h
    rcases hx : expandStep f saveOn
      (((relListOf paper rel).filter (fun st => st.paperId != "")).map Stub.paperId) s
      with ⟨t, e⟩
    rw [hx] at hg
    rw [hx]
    cases e <;> simpa using hg

/-- Claim C9 engine: from any crawl state, no later step of the loop
overwrites or deletes an already stored record. -/
theorem crawlLoop_lookup_preserved (f : String → Except FetchError Paper) (saveOn : Bool) :
    ∀ (fuel : Nat) (s : CrawlState) (k : String) (r : Paper),
      lookupD s.papersDict k = some r →
      lookupD ((crawlLoop f saveOn fuel s).1).papersDict k = some r := by
  intro fuel
  induction fuel with
  | zero => intro s k r h; simpa [crawlLoop] using h
  | succ n ih =>
    intro s k r h
    rw [crawlLoop]
    cases hq : s.queue with
    | nil => simpa using h
    | cons id rest =>
      by_cases hv : id ∈ s.visited
      · simp only [hv, if_true]
        exact ih _ k r h
      · simp only [hv, if_false]
        have h₁ : lookupD (markVisited id rest s).papersDict k = some r := h
        split
        next t e₁ hr =>
          have ht := retrieve_lookup_preserved f saveOn id RelType.references
            (markVisited id rest s) k r h₁
          rw [hr] at ht
          exact ht
        next t hr =>
          have ht := retrieve_lookup_preserved f saveOn id RelType.references
            (markVisited id rest s) k r h₁
          rw [hr] at ht
          split
          next u e₂ hc =>
            have hu := retrieve_lookup_preserved f saveOn id RelType.citations t k r ht
            rw [hc] at hu
            exact hu
          next u hc =>
            have hu := retrieve_lookup_preserved f saveOn id RelType.citations t k r ht
            rw [hc] at hu
            exact ih u k r hu

/-- Gate invariant of the single-fetch gate, relative to the seed
dictionary: the fetched ids are pairwise distinct, every fetched id is in
the record store, no fetched id was a seed, and every seed is still in the
record store. -/
def GateInv (d₀ : Dict) (s : CrawlState) : Prop :=
  (fetchIds s.events).Nodup ∧
  (∀ i ∈ fetchIds s.events, memD s.papersDict i = true) ∧
  (∀ i ∈ fetchIds s.events, memD d₀ i = false) ∧
  (∀ k, memD d₀ k = true → memD s.papersDict k = true)

/-- Storing a record whose id passed the gate preserves the gate
invariant. -/
theorem recordNew_gateInv (saveOn : Bool) (id : String) (rec : Paper) (s : CrawlState)
    (d₀ : Dict) (h : GateInv d₀ s) (hm : memD s.papersDict id = false) :
    GateInv d₀ (recordNew saveOn id rec s) := by
  obtain ⟨h1, h2, h3, h4⟩ := h
  have hdict := recordNew_papersDict saveOn id rec s
  have hfetch := recordNew_fetchIds saveOn id rec s
  have hid : id ∉ fetchIds s.events := by
    intro hin
    rw [h2 id hin] at hm
    cases hm
  refine ⟨?_, ?_, ?_, ?_⟩
  · rw [hfetch]
    simp [List.nodup_append, h1, hid]
  · intro i hi
    rw [hfetch] at hi
    rw [hdict]
    rcases List.mem_append.mp hi with hia | hib
    · exact memD_append_left _ _ _ (h2 i hia)
    · have : i = id := by simpa using hib
      subst this
      exact memD_append_self _ _ _
  · intro i hi
    rw [hfetch] at hi
    rcases List.mem_append.mp hi with hia | hib
    · exact h3 i hia
    · have : i = id := by simpa using hib
      subst this
      cases hmem : memD d₀ i with
      | false => rfl
      | true =>
        rw [h4 i hmem] at hm
        cases hm
  · intro k hk
    rw [hdict]
    exact memD_append_left _ _ _ (h4 k hk)

/-- Expansion preserves the gate invariant. -/
theorem expandStep_gateInv (f : String → Except FetchError Paper) (saveOn : Bool)
    (d₀ : Dict) (ids : List String) :
    ∀ s, GateInv d₀ s → GateInv d₀ (expandStep f saveOn ids s).1 := by
  induction ids with
  | nil => intro s h; simpa [expandStep] using h
  | cons id rest ih =>
    intro s h
    rw [expandStep]
    cases hm : memD s.papersDict id with
    | true =>
      simp only [hm, if_true]
      exact ih s h
    | false =>
      simp only [hm, if_false, Bool.false_eq_true]
      cases hf : f id with
      | error e => simpa using h
      | ok rec => exact ih _ (recordNew_gateInv saveOn id rec s d₀ h hm)

/-- Marking a node visited preserves the gate invariant: the visit event
adds no fetch id and touches neither the record store nor the seeds. -/
theorem markVisited_gateInv (id : String) (rest : List String) (s : CrawlState)
    (d₀ : Dict) (h : GateInv d₀ s) : GateInv d₀ (markVisited id rest s) := by
  obtain ⟨h1, h2, h3, h4⟩ := h
  have hf : fetchIds (markVisited id rest s).events = fetchIds s.events := by
    simp [markVisited, fetchIds, List.filterMap_append]
  exact ⟨by rw [hf]; exact h1, by rw [hf]; exact h2, by rw [hf]; exact h3, h4⟩

/-- Subroutine _retrieve_related_papers preserves the gate invariant. -/
theorem retrieve_gateInv (f : String → Except FetchError Paper) (saveOn : Bool)
    (pid : String) (rel : RelType) (s : CrawlState) (d₀ : Dict) (h : GateInv d₀ s) :
    GateInv d₀ (retrieveRelatedPapers f saveOn pid rel s).1 := by
  unfold retrieveRelatedPapers
  cases hl : lookupD s.papersDict pid with
  | none => simpa using h
  | some paper =>
    simp only
    have hg := expandStep_gateInv f saveOn d₀
      (((relListOf paper rel).filter (fun st => st.paperId != "")).map Stub.paperId) s h
    rcases hx : expandStep f saveOn
      (((relListOf paper rel).filter (fun st => st.paperId != "")).map Stub.paperId) s
      with ⟨t, e⟩
    rw [hx] at hg
    rw [hx]
    cases e <;> simpa using hg

/-- Loop of the crawl preserves the gate invariant. -/
theorem crawlLoop_gateInv (f : String → Except FetchError Paper) (saveOn : Bool)
    (d₀ : Dict) : ∀ (fuel : Nat) (s : CrawlState),
      GateInv d₀ s → GateInv d₀ ((crawlLoop f saveOn fuel s).1) := by
  intro fuel
  induction fuel with
  | zero => intro s h; simpa [crawlLoop] using h
  | succ n ih =>
    intro s h
    rw [crawlLoop]
    cases hq : s.queue with
    | nil => simpa using h
    | cons id rest =>
      by_cases hv : id ∈ s.visited
      · simp only [hv, if_true]
        exact ih _ h
      · simp only [hv, if_false]
        have h₁ : GateInv d₀ (markVisited id rest s) := markVisited_gateInv id rest s d₀ h
        split
        next t e₁ hr =>
          have ht := retrieve_gateInv f saveOn id RelType.references (markVisited id rest s) d₀ h₁
          rw [hr] at ht
          exact ht
        next t hr =>
          have ht := retrieve_gateInv f saveOn id RelType.references (markVisited id rest s) d₀ h₁
          rw [hr] at ht
          split
          next u e₂ hc =>
            have hu := retrieve_gateInv f saveOn id RelType.citations t d₀ ht
            rw [hc] at hu
            exact hu
          next u hc =>
            have hu := retrieve_gateInv f saveOn id RelType.citations t d₀ ht
            rw [hc] at hu
            exact ih u hu

/-- Events that touch a non-empty identifier; visits are unconstrained
because the empty-edge claim concerns edge stubs, not popped seeds. -/
def okEv : Ev → Bool
  | Ev.visit _ => true
  | Ev.fetch i => i != ""
  | Ev.save i => i != ""
  | Ev.enqueue i => i != ""

/-- Ids produced by the list comprehension at src/main.py lines 84-86 are
never the empty string. -/
theorem filteredIds_ok (l : List Stub) :
    (((l.filter (fun st => st.paperId != "")).map Stub.paperId).all (fun i => i != "")) = true := by
  rw [List.all_eq_true]
  intro i hi
  rcases List.mem_map.mp hi with ⟨st, hst, rfl⟩
  exact (List.mem_filter.mp hst).2

/-- Expansion over non-empty ids keeps the trace clean of empty-id events
and never inserts the empty id into the record store. -/
theorem expandStep_okEv (f : String → Except FetchError Paper) (saveOn : Bool)
    (ids : List String) : ∀ s, ids.all (fun i => i != "") = true →
      s.events.all okEv = true →
      ((expandStep f saveOn ids s).1.events.all okEv = true ∧
        memD (expandStep f saveOn ids s).1.papersDict "" = memD s.papersDict "") := by
  induction ids with
  | nil =>
    intro s _ hev
    exact ⟨by simpa [expandStep] using hev, by simp [expandStep]⟩
  | cons id rest ih =>
    intro s hids hev
    rw [List.all_cons, Bool.and_eq_true] at hids
    obtain ⟨hid, hrest⟩ := hids
    rw [expandStep]
    cases hm : memD s.papersDict id with
    | true =>
      simp only [hm, if_true]
      exact ih s hrest hev
    | false =>
      simp only [hm, if_false, Bool.false_eq_true]
      cases hf : f id with
      | error e => exact ⟨by simpa using hev, by simp⟩
      | ok rec =>
        have hne : (id == "") = false := by
          simpa [bne] using hid
        have hev₂ : (recordNew saveOn id rec s).events.all okEv = true := by
          rw [recordNew_events]
          by_cases hs : saveOn <;> by_cases hv₂ : id ∈ s.visited <;>
            simp [hs, hv₂, List.all_append, hev, okEv, hid]
        have hmem : memD (recordNew saveOn id rec s).papersDict "" = memD s.papersDict "" := by
          rw [recordNew_papersDict]
          exact memD_append_ne _ _ _ _ hne
        obtain ⟨ha, hb⟩ := ih (recordNew saveOn id rec s) hrest hev₂
        exact ⟨ha, by rw [hb, hmem]⟩

/-- Subroutine _retrieve_related_papers keeps the trace clean of empty-id
events and never inserts the empty id into the record store. -/
theorem retrieve_okEv (f : String → Except FetchError Paper) (saveOn : Bool)
    (pid : String) (rel : RelType) (s : CrawlState) (hev : s.events.all okEv = true) :
    ((retrieveRelatedPapers f saveOn pid rel s).1.events.all okEv = true ∧
      memD (retrieveRelatedPapers f saveOn pid rel s).1.papersDict "" =
        memD s.papersDict "") := by
  unfold retrieveRelatedPapers
  cases hl : lookupD s.papersDict pid with
  | none => exact ⟨by simpa using hev, by simp⟩
  | some paper =>
    simp only
    have hg := expandStep_okEv f saveOn
      (((relListOf paper rel).filter (fun st => st.paperId != "")).map Stub.paperId) s
      (filteredIds_ok _) hev
    rcases hx : expandStep f saveOn
      (((relListOf paper rel).filter (fun st => st.paperId != "")).map Stub.paperId) s
      with ⟨t, e⟩
    rw [hx] at hg
    rw [hx]
    cases e <;> simpa using hg

/-- Loop of the crawl keeps the trace clean of empty-id events and never
inserts the empty id into the record store. -/
theorem crawlLoop_okEv (f : String → Except FetchError Paper) (saveOn : Bool) :
    ∀ (fuel : Nat) (s : CrawlState), s.events.all okEv = true →
      (((crawlLoop f saveOn fuel s).1).events.all okEv = true ∧
        memD ((crawlLoop f saveOn fuel s).1).papersDict "" = memD s.papersDict "") := by
  intro fuel
  induction fuel with
  | zero => intro s hev; exact ⟨by simpa [crawlLoop] using hev, by simp [crawlLoop]⟩
  | succ n ih =>
    intro s hev
    rw [crawlLoop]
    cases hq : s.queue with
    | nil => exact ⟨by simpa using hev, by simp⟩
    | cons id rest =>
      by_cases hv : id ∈ s.visited
      · simp only [hv, if_true]
        exact ih _ hev
      · simp only [hv, if_false]
        have hev₁ : (markVisited id rest s).events.all okEv = true := by
          simp [markVisited, List.all_append, hev, okEv]
        split
        next t e₁ hr =>
          have ht := retrieve_okEv f saveOn id RelType.references (markVisited id rest s) hev₁
          rw [hr] at ht
          exact ⟨ht.1, ht.2⟩
        next t hr =>
          have ht := retrieve_okEv f saveOn id RelType.references (markVisited id rest s) hev₁
          rw [hr] at ht
          split
          next u e₂ hc =>
            have hu := retrieve_okEv f saveOn id RelType.citations t ht.1
            rw [hc] at hu
            exact ⟨hu.1, by rw [hu.2, ht.2]; simp [markVisited]⟩
          next u hc =>
            have hu := retrieve_okEv f saveOn id RelType.citations t ht.1
            rw [hc] at hu
            obtain ⟨hl1, hl2⟩ := ih u hu.1
            exact ⟨hl1, by rw [hl2, hu.2, ht.2]; simp [markVisited]⟩

/-- Mapping distributes over intersperse. -/
theorem map_intersperse_general {α β : Type} (g : α → β) (sep : α) :
    ∀ l : List α, (List.intersperse sep l).map g = List.intersperse (g sep) (l.map g) := by
  intro l
  induction l with
  | nil => rfl
  | cons hd tl ih =>
    cases tl with
    | nil => rfl
    | cons c tl₂ =>
      simp only [List.intersperse, List.map]
      rw [ih]
      simp [List.intersperse]

/-- Lowercasing commutes with joining word runs on underscores, because
the underscore is its own lowercase. -/
theorem map_toLower_intercalate (L : List (List Char)) :
    (List.intercalate ['_'] L).map Char.toLower =
      List.intercalate ['_'] (L.map (fun r => r.map Char.toLower)) := by
  unfold List.intercalate
  rw [List.map_flatten, map_intersperse_general (List.map Char.toLower) ['_'] L]
  have h : ['_'].map Char.toLower = ['_'] := by decide
  rw [h]

/-- Fixture paper carrying the spec's example title. -/
def attentionPaper : Paper :=
  { paperId := "p1", title := "Attention Is All You Need: Transformer Models!!",
    references := [], citations := [] }

/-- Outcome set for scrap_paper_by_title where only _start_browser fails. -/
def startFailOutcome : ScrapOutcomes :=
  { startExc := some PyError.webDriverError, searchExc := none, openFirstExc := none,
    checkWaitExc := none, titleDistance := 0, attrsResult := Except.ok [], closeExc := none }

/-- Outcome set of the title-mismatch scenario: every external step works
but the opened page's title is at Levenshtein distance 11 from the request. -/
def mismatchOutcome : ScrapOutcomes :=
  { startExc := none, searchExc := none, openFirstExc := none, checkWaitExc := none,
    titleDistance := 11, attrsResult := Except.ok [("paperId", "p1")], closeExc := none }

/-- Claim C1: the spec requires the visited set at termination to equal the
set of identifiers reachable from the seeds, but the code aborts: with the
two edge-free seeds A and C of the diamond fixture (reachable set at least
these two seeds), get_related_papers visits only A and then raises
TypeError at the ill-typed call of _retrieve_related_papers, so the
traversal never produces the reachable set. -/
theorem crawl_aborts_on_first_expansion :
    getRelatedPapers [("A", paperA), ("C", paperC)] =
      ([Ev.visit "A"], Except.error PyError.typeError) := by
  rfl

/-- Claim C2: across one whole crawl each identifier is fetched at most
once (the fetch-id trace has no duplicates), and no identifier already in
papers_dict before the traversal — a seed — is ever fetched. Proved over
the crawl with _retrieve_related_papers invoked per its declared
signature; the literal composition aborts before any fetch (claim C3),
under which the property holds vacuously. -/
theorem at_most_once_fetch (f : String → Except FetchError Paper) (saveOn : Bool)
    (fuel : Nat) (d : Dict) :
    (fetchIds ((crawl f saveOn fuel d).1).events).Nodup ∧
    (fetchIds ((crawl f saveOn fuel d).1).events).all (fun i => !(memD d i)) = true := by
  have h0 : GateInv d (initState d) := by
    refine ⟨?_, ?_, ?_, ?_⟩ <;> simp [initState, fetchIds]
  obtain ⟨h1, _, h3, _⟩ := crawlLoop_gateInv f saveOn d fuel (initState d) h0
  refine ⟨h1, ?_⟩
  rw [List.all_eq_true]
  intro i hi
  simp [h3 i hi]

/-- Claim C3: for every papers_dict holding at least one identifier,
get_related_papers raises TypeError before any fetch, save or enqueue: the
whole trace is the single visit of the first key, and the call of
_retrieve_related_papers with four positional arguments fails at argument
binding, before the method body runs. -/
theorem get_related_papers_type_error (k : String) (p : Paper) (d : Dict) :
    getRelatedPapers ((k, p) :: d) = ([Ev.visit k], Except.error PyError.typeError) := by
  simp [getRelatedPapers, getRelatedPapersGo]

/-- Claim C4: on the diamond scenario (seed A, A.references = [B, C],
B.citations = [A, D], C and D edge-free) the literal get_related_papers
aborts with TypeError after visiting A, performing no fetch and saving no
file. With the call fixed to match the signature of
_retrieve_related_papers, the crawl completes, visits A, B, C, D in that
order, fetches exactly B, C, D once each and never A, and persists the
three fetched papers — not four files: the seed is never saved by
get_related_papers. -/
theorem diamond_scenario :
    getRelatedPapers diamondSeeds = ([Ev.visit "A"], Except.error PyError.typeError) ∧
    (crawl diamondFetch true 10 diamondSeeds).2 = none ∧
    visitIds ((crawl diamondFetch true 10 diamondSeeds).1).events = ["A", "B", "C", "D"] ∧
    fetchIds ((crawl diamondFetch true 10 diamondSeeds).1).events = ["B", "C", "D"] ∧
    saveIds ((crawl diamondFetch true 10 diamondSeeds).1).events = ["B", "C", "D"] := by
  exact ⟨rfl, rfl, rfl, rfl, rfl⟩

/-- Claim C5 counterexample: a _get_paper_json_by_id call whose HTTP
request raises performs no cooldown at all — `time.sleep` is only reached
after `requests.get` returns — refuting the claim that the delay elapses
after every completed call, success or failure. -/
theorem no_cooldown_on_transport_failure :
    FetchEv.sleep ∉ (getPaperJsonById (Except.error ReqErr.timeout)
      (fun _ => Except.error DecodeErr.jsonDecodeError)).1 := by
  decide

/-- Claim C5 as amended: the cooldown elapses exactly after those calls
whose HTTP request completes — including calls whose body then fails to
decode, since the sleep precedes `request.json()` — while a call whose
request raises propagates the error immediately with no cooldown. -/
theorem cooldown_iff_request_completes (httpResult : Except ReqErr String)
    (parseJson : String → Except DecodeErr Paper) :
    FetchEv.sleep ∈ (getPaperJsonById httpResult parseJson).1 ↔
      ∃ body, httpResult = Except.ok body := by
  cases httpResult with
  | error e => simp [getPaperJsonById]
  | ok body => cases hp : parseJson body <;> simp [getPaperJsonById, hp]

/-- Claim C6: from every crawl state whose head node's expansion raises a
FetchError — in the references phase, or in the citations phase after the
references phase succeeded — the loop returns exactly that error and the
state at failure: the error propagates unhandled, nothing further is
visited or fetched, no node is skipped and no recovery occurs. -/
theorem fetch_error_aborts (f : String → Except FetchError Paper) (saveOn : Bool)
    (fuel : Nat) (s t : CrawlState) (id : String) (rest : List String) (e : FetchError)
    (hq : s.queue = id :: rest) (hv : id ∉ s.visited)
    (h : retrieveRelatedPapers f saveOn id RelType.references (markVisited id rest s) =
           (t, some (PyError.fetchError e)) ∨
         (∃ u, retrieveRelatedPapers f saveOn id RelType.references (markVisited id rest s) =
             (u, none) ∧
           retrieveRelatedPapers f saveOn id RelType.citations u =
             (t, some (PyError.fetchError e)))) :
    crawlLoop f saveOn (fuel + 1) s = (t, some (PyError.fetchError e)) := by
  rw [crawlLoop]
  simp only [hq]
  rw [if_neg hv]
  rcases h with h | ⟨u, h1, h2⟩
  · rw [h]
  · simp only [h1, h2]

/-- Witness for claim C6: a seed whose only reference cannot be fetched
aborts the crawl with the network error, right after the seed's visit. -/
theorem fetch_error_aborts_witness :
    crawlLoop failFetch true 5 (initState [("A", paperFailSeed)]) =
      ({ papersDict := [("A", paperFailSeed)], visited := ["A"], queue := [],
         events := [Ev.visit "A"] },
       some (PyError.fetchError (FetchError.network ReqErr.timeout))) :=
  fetch_error_aborts failFetch true 4 (initState [("A", paperFailSeed)]) _ "A" []
    (FetchError.network ReqErr.timeout) rfl (by simp [initState]) (Or.inl rfl)

/-- Claim C7: no event of a whole crawl fetches, saves or enqueues the
empty identifier — the list comprehension filters empty-id stubs before
the loop — and the empty identifier is in the record store at the end
exactly if it was among the seeds, so no stub with an empty id is ever
stored either. -/
theorem empty_id_never_touched (f : String → Except FetchError Paper) (saveOn : Bool)
    (fuel : Nat) (d : Dict) :
    ((crawl f saveOn fuel d).1).events.all okEv = true ∧
    memD ((crawl f saveOn fuel d).1).papersDict "" = memD d "" := by
  have h := crawlLoop_okEv f saveOn fuel (initState d) (by simp [initState])
  have h₂ := h.2
  simp only [initState] at h₂
  exact ⟨h.1, h₂⟩

/-- Claim C8: the derived base name is the word-character runs of the
title, lowercased, joined by underscores and truncated to at most 50
characters, and on the spec's example title the code yields the spec's
base name and file name. -/
theorem create_json_file_name_correct :
    (∀ t : String, createJsonBaseName t = specFileBaseName t) ∧
    (∀ t : String, (createJsonBaseName t).length ≤ 50) ∧
    createJsonBaseName "Attention Is All You Need: Transformer Models!!" =
      "attention_is_all_you_need_transformer_models" ∧
    createJsonFileName attentionPaper "out" =
      "out/attention_is_all_you_need_transformer_models.json" := by
  refine ⟨?_, ?_, by rfl, by rfl⟩
  · intro t
    unfold createJsonBaseName specFileBaseName
    rw [map_toLower_intercalate]
  · intro t
    unfold createJsonBaseName
    show (List.take 50 _).length ≤ 50
    exact List.length_take_le _ _

/-- Claim C9: a record present in papers_dict at any point of the crawl is
still there, unchanged, after every later step: expansion only inserts
absent keys and nothing ever deletes. -/
theorem record_store_preserved (f : String → Except FetchError Paper) (saveOn : Bool)
    (fuel : Nat) (s : CrawlState) (k : String) (r : Paper)
    (h : lookupD s.papersDict k = some r) :
    lookupD ((crawlLoop f saveOn fuel s).1).papersDict k = some r :=
  crawlLoop_lookup_preserved f saveOn fuel s k r h

/-- Witness for claim C9: the seed record of the diamond run is intact
after the whole crawl. -/
theorem record_store_preserved_witness :
    lookupD ((crawlLoop diamondFetch true 10 (initState diamondSeeds)).1).papersDict "A" =
      some paperA :=
  record_store_preserved diamondFetch true 10 (initState diamondSeeds) "A" paperA rfl

/-- Claim C10 counterexample: scrap_paper_by_title does propagate an
exception when _start_browser fails, because that call happens before the
try block whose finally would otherwise discard it. -/
theorem scrap_propagates_start_browser_failure :
    scrapPaperByTitle true startFailOutcome = Except.error PyError.webDriverError := by
  rfl

/-- Claim C10 as amended: when _start_browser does not fail (in particular
whenever call_browser is false), scrap_paper_by_title returns the possibly
empty attributes dictionary no matter which step raises — the return in
the finally block discards every in-flight exception — and on a title
mismatch the raise of FirstPaperDifferentError without its two required
constructor arguments produces a TypeError, which is likewise swallowed,
returning the empty dictionary. -/
theorem scrap_returns_dict_unless_start_fails :
    (∀ (callBrowser : Bool) (o : ScrapOutcomes),
      (if callBrowser then o.startExc else none) = none →
      ∃ d, scrapPaperByTitle callBrowser o = Except.ok d) ∧
    checkPaperPage none 11 = some PyError.typeError ∧
    scrapPaperByTitle true mismatchOutcome = Except.ok [] := by
  refine ⟨?_, by rfl, by rfl⟩
  intro cb o h
  unfold scrapPaperByTitle
  rw [h]
  rcases hb : scrapPaperByTitleBody cb o with ⟨d, e⟩
  cases e with
  | none => exact ⟨d, rfl⟩
  | some e₂ => cases e₂ <;> exact ⟨d, rfl⟩

/-- Witness for claim C10: with call_browser false the start-browser
outcome is irrelevant and the call returns a dictionary. -/
theorem scrap_returns_dict_unless_start_fails_witness :
    ∃ d, scrapPaperByTitle false startFailOutcome = Except.ok d :=
  scrap_returns_dict_unless_start_fails.1 false startFailOutcome rfl

end Scrapper
